import Mathlib

/-!
Verification development for the NASDAQ pattern-scanner repository
(`pattern_detector.py`, `marketstack_client.py`, `main.py`).

Prices and volumes are modelled as rationals (`ℚ`); the Python source
computes with IEEE doubles, so the embedding is faithful wherever no
division by zero is evaluated (every theorem below either carries
positivity hypotheses that rule zero denominators out, or uses an
instrumented variant that reports such a division explicitly).
Pandas `DataFrame`s are modelled as a list of OHLCV bars plus the list
of extra columns added by column assignment.
-/

set_option allowUnsafeReducibility true in
attribute [semireducible] Rat.mul Rat.div Rat.inv Rat.add Rat.sub Rat.neg

set_option maxRecDepth 40000

/-! ## List helpers -/

/-- The last `n` elements of a list (`pandas.DataFrame.tail(n)` / Python `l[-n:]`). -/
def lastN (n : ℕ) (l : List α) : List α := l.drop (l.length - n)

/-- Minimum of a list of rationals (Python `min` over a nonempty sequence;
all uses are guarded so that the `[]` case is never reached). -/
def minQ : List ℚ → ℚ
  | [] => 0
  | x :: xs => xs.foldl min x

/-- Maximum of a list of rationals (Python `max` over a nonempty sequence). -/
def maxQ : List ℚ → ℚ
  | [] => 0
  | x :: xs => xs.foldl max x

/-! ## Data model: bars and frames

A `Bar` is one OHLCV row of the pandas `DataFrame` that
`marketstack_client.py` builds (columns `Open`, `High`, `Low`, `Close`,
`Volume`, in that order, indexed by date). A `Frame` is the `DataFrame`
itself: its OHLCV rows plus any extra columns that were added to it by
column assignment (`df['SMA_20'] = ...`), each a name together with the
column values (`none` models a `NaN` produced by `rolling(...).mean()`
before the window is full). -/

structure Bar where
  Open : ℚ
  High : ℚ
  Low : ℚ
  Close : ℚ
  Volume : ℚ
deriving DecidableEq

structure Frame where
  bars : List Bar
  extra : List (String × List (Option ℚ))
deriving DecidableEq

/-- The `Close` column, in row order. -/
def closesOf (df : Frame) : List ℚ := df.bars.map Bar.Close

/-- The `High` column, in row order. -/
def highsOf (df : Frame) : List ℚ := df.bars.map Bar.High

/-- The `Low` column, in row order. -/
def lowsOf (df : Frame) : List ℚ := df.bars.map Bar.Low

/-- The `Volume` column, in row order. -/
def volsOf (df : Frame) : List ℚ := df.bars.map Bar.Volume

/-- A bar whose four prices are `c` (used to build concrete test frames). -/
def cbar (c : ℚ) : Bar := { Open := c, High := c, Low := c, Close := c, Volume := 0 }

/-! ## `scipy.signal.find_peaks(x, distance=5)`

`pattern_detector.py` delegates local-extremum detection to
`scipy.signal.find_peaks` with `distance=5` and no other filter. The
embedding mirrors scipy's two phases:

1. `_local_maxima_1d`: scan `i` from `1` while `i < n-1`; on
   `x[i-1] < x[i]`, advance `i_ahead` over the plateau of values equal to
   `x[i]` (stopping at `n-1`); if `x[i_ahead] < x[i]`, record the plateau
   midpoint `(i + (i_ahead-1)) / 2` and resume from `i_ahead + 1`.
2. `_select_by_peak_distance`: visit peaks from highest priority
   (`x[peak]`) to lowest; each still-kept peak removes neighbours closer
   than `distance` on both sides, by a literal scan that stops at the
   first neighbour at distance `≥ 5`.

numpy's `argsort` leaves the relative order of equal priorities
unspecified; the embedding refines it deterministically by index, which
agrees with scipy whenever the relevant priorities are distinct (as in
every concrete input used below). Both loops are written with an explicit
fuel argument (`x.size` bounds the number of iterations, since the index
strictly increases at every step). -/

/-- Plateau scan of `_local_maxima_1d`: first index `≥ j` that is `≥ iMax` or
carries a value different from `v`. -/
def scanPlateau (x : Array ℚ) (iMax : ℕ) (v : ℚ) : ℕ → ℕ → ℕ
  | 0, j => j
  | fuel + 1, j => if j < iMax ∧ x.getD j 0 = v then scanPlateau x iMax v fuel (j + 1) else j

/-- Main loop of `_local_maxima_1d`. -/
def localMaximaAux (x : Array ℚ) (iMax : ℕ) : ℕ → ℕ → List ℕ
  | 0, _ => []
  | fuel + 1, i =>
    if i < iMax then
      if x.getD (i - 1) 0 < x.getD i 0 then
        let ia := scanPlateau x iMax (x.getD i 0) x.size (i + 1)
        if x.getD ia 0 < x.getD i 0 then
          (i + (ia - 1)) / 2 :: localMaximaAux x iMax fuel (ia + 1)
        else
          localMaximaAux x iMax fuel (i + 1)
      else
        localMaximaAux x iMax fuel (i + 1)
    else []

/-- All interior local maxima (plateau midpoints), ascending. -/
def localMaxima (l : List ℚ) : List ℕ :=
  let x := l.toArray
  localMaximaAux x (x.size - 1) x.size 1

/-- Clear `keep[k]` (no-op out of bounds, which never happens in calls). -/
def keepClear (keep : Array Bool) (k : ℕ) : Array Bool :=
  if h : k < keep.size then keep.set ⟨k, h⟩ false else keep

/-- Left-neighbour removal sweep of `_select_by_peak_distance`: the argument
is one past the index under examination, so `k + 1` examines index `k`. -/
def clearLeft (peaks : Array ℕ) (pj : ℤ) : ℕ → Array Bool → Array Bool
  | 0, keep => keep
  | k + 1, keep =>
    if pj - (peaks.getD k 0 : ℤ) < 5 then clearLeft peaks pj k (keepClear keep k) else keep

/-- Right-neighbour removal sweep of `_select_by_peak_distance`. -/
def clearRight (peaks : Array ℕ) (pj : ℤ) : ℕ → ℕ → Array Bool → Array Bool
  | 0, _, keep => keep
  | fuel + 1, k, keep =>
    if k < peaks.size ∧ (peaks.getD k 0 : ℤ) - pj < 5 then
      clearRight peaks pj fuel (k + 1) (keepClear keep k)
    else keep

/-- Insert position `j` into an index list kept ascending by
`(priority, index)`; the index tie-break fixes numpy's unspecified
ordering of equal priorities. -/
def argInsert (pr : Array ℚ) (j : ℕ) : List ℕ → List ℕ
  | [] => [j]
  | k :: ks =>
    if pr.getD j 0 < pr.getD k 0 ∨ (pr.getD j 0 = pr.getD k 0 ∧ j < k) then j :: k :: ks
    else k :: argInsert pr j ks

/-- `numpy.argsort` of the priority array (ascending). -/
def argsortQ (pr : Array ℚ) : List ℕ := (List.range pr.size).foldr (argInsert pr) []

/-- Highest-priority-first traversal of `_select_by_peak_distance`. -/
def selectLoop (peaks : Array ℕ) : List ℕ → Array Bool → Array Bool
  | [], keep => keep
  | j :: rest, keep =>
    if keep.getD j false then
      let pj : ℤ := (peaks.getD j 0 : ℤ)
      let k1 := clearLeft peaks pj j keep
      let k2 := clearRight peaks pj peaks.size (j + 1) k1
      selectLoop peaks rest k2
    else selectLoop peaks rest keep

/-- `scipy.signal.find_peaks(l, distance=5)[0]`: indices of the surviving
local maxima, ascending. -/
def findPeaks (l : List ℚ) : List ℕ :=
  let peaks := (localMaxima l).toArray
  let pr : Array ℚ := peaks.map fun i => l.getD i 0
  let order := (argsortQ pr).reverse
  let keep := selectLoop peaks order (Array.mkArray peaks.size true)
  (List.range peaks.size).filterMap fun j =>
    if keep.getD j false then some (peaks.getD j 0) else none

/-! ## The classifiers of `PatternDetector`

Each `detect_*` function mirrors the corresponding method of
`pattern_detector.py`. Conventions of the translation:

* Python `l[-1]` on a sequence known to be nonempty is `l.getD (l.length - 1) 0`.
* The whole body of each method is wrapped in `try/except` returning
  `(False, 0.0)`. numpy float arithmetic raises no exception, so the only
  reachable exception sources are `min()`/`max()` on an empty slice and
  fancy indexing with an out-of-range index; both are modelled as explicit
  branches yielding `(false, 0)`.
* `self.min_confidence` is the literal `0.5`.
* Divisions translate to `ℚ` division, faithful whenever the denominator
  is nonzero (see the instrumented `*_checked` variants below for the
  zero-denominator behaviour). -/

/-- Body of `detect_bull_flag` on the 30-bar tail of closes
(`recent = df.tail(30)`; `closes = recent['Close'].values`). -/
def bullFlagCore (closes : List ℚ) : Bool × ℚ :=
  let firstHalf := closes.take 15
  let flagpole_gain := (firstHalf.getD (firstHalf.length - 1) 0 - firstHalf.getD 0 0) /
    firstHalf.getD 0 0
  if flagpole_gain < 1/20 then (false, 0) else
  let secondHalf := closes.drop 15
  let consolidation_change := (secondHalf.getD (secondHalf.length - 1) 0 -
    secondHalf.getD 0 0) / secondHalf.getD 0 0
  if consolidation_change < -(1/20) ∨ consolidation_change > 1/50 then (false, 0) else
  let recent_price := closes.getD (closes.length - 1) 0
  let consolidation_high := maxQ secondHalf
  let consolidation_low := minQ secondHalf
  let consolidation_range := consolidation_high - consolidation_low
  if consolidation_range = 0 then (false, 0) else
  let position_in_range := (recent_price - consolidation_low) / consolidation_range
  let confidence := min 1 ((3/10) * min 1 (flagpole_gain / (3/20)) +
    (2/5) * (1 - |consolidation_change| / (1/20)) + (3/10) * position_in_range)
  (decide (confidence > 1/2), confidence)

/-- `PatternDetector.detect_bull_flag`. -/
def detect_bull_flag (df : Frame) : Bool × ℚ :=
  if df.bars.length < 30 then (false, 0)
  else bullFlagCore (lastN 30 (closesOf df))

/-- Body of `detect_bear_flag` on the 30-bar tail of closes. -/
def bearFlagCore (closes : List ℚ) : Bool × ℚ :=
  let firstHalf := closes.take 15
  let flagpole_drop := (firstHalf.getD 0 0 - firstHalf.getD (firstHalf.length - 1) 0) /
    firstHalf.getD 0 0
  if flagpole_drop < 1/20 then (false, 0) else
  let secondHalf := closes.drop 15
  let consolidation_change := (secondHalf.getD (secondHalf.length - 1) 0 -
    secondHalf.getD 0 0) / secondHalf.getD 0 0
  if consolidation_change < -(1/50) ∨ consolidation_change > 1/20 then (false, 0) else
  let recent_price := closes.getD (closes.length - 1) 0
  let consolidation_high := maxQ secondHalf
  let consolidation_low := minQ secondHalf
  let consolidation_range := consolidation_high - consolidation_low
  if consolidation_range = 0 then (false, 0) else
  let position_in_range := (consolidation_high - recent_price) / consolidation_range
  let confidence := min 1 ((3/10) * min 1 (flagpole_drop / (3/20)) +
    (2/5) * (1 - |consolidation_change| / (1/20)) + (3/10) * position_in_range)
  (decide (confidence > 1/2), confidence)

/-- `PatternDetector.detect_bear_flag`. -/
def detect_bear_flag (df : Frame) : Bool × ℚ :=
  if df.bars.length < 30 then (false, 0)
  else bearFlagCore (lastN 30 (closesOf df))

/-- Body of `detect_head_shoulders` on the 40-bar tail of closes. -/
def headShouldersCore (closes : List ℚ) : Bool × ℚ :=
  let peaks := findPeaks closes
  if peaks.length < 3 then (false, 0) else
  match peaks.drop (peaks.length - 3) with
  | [i0, i1, i2] =>
    -- `closes[last_3_peaks]`: fancy indexing raises `IndexError` out of
    -- range, landing in the `except` handler
    if i0 < closes.length ∧ i1 < closes.length ∧ i2 < closes.length then
      let p0 := closes.getD i0 0
      let p1 := closes.getD i1 0
      let p2 := closes.getD i2 0
      if p1 ≤ p0 ∨ p1 ≤ p2 then (false, 0) else
      let shoulder_diff := |p0 - p2| / p0
      if shoulder_diff > 1/10 then (false, 0) else
      let seg1 := (closes.drop i0).take (i1 - i0)
      let seg2 := (closes.drop i1).take (i2 - i1)
      -- `min()` on an empty slice raises `ValueError`, landing in `except`
      if seg1.isEmpty ∨ seg2.isEmpty then (false, 0) else
      let neckline := (minQ seg1 + minQ seg2) / 2
      let current_price := closes.getD (closes.length - 1) 0
      let below_neckline := current_price < neckline
      let head_prominence := (p1 - (p0 + p2) / 2) / p1
      let confidence := min 1 ((2/5) * (1 - shoulder_diff / (1/10)) +
        (3/10) * min 1 (head_prominence / (1/20)) +
        (3/10) * (if below_neckline then 1 else 1/2))
      (decide (confidence > 1/2), confidence)
    else (false, 0)
  | _ => (false, 0)

/-- `PatternDetector.detect_head_shoulders`. -/
def detect_head_shoulders (df : Frame) : Bool × ℚ :=
  if df.bars.length < 40 then (false, 0)
  else headShouldersCore (lastN 40 (closesOf df))

/-- Body of `detect_double_top` on the 30-bar tail of closes. -/
def doubleTopCore (closes : List ℚ) : Bool × ℚ :=
  let peaks := findPeaks closes
  if peaks.length < 2 then (false, 0) else
  match peaks.drop (peaks.length - 2) with
  | [i0, i1] =>
    if i0 < closes.length ∧ i1 < closes.length then
      let p0 := closes.getD i0 0
      let p1 := closes.getD i1 0
      let peak_diff := |p0 - p1| / p0
      if peak_diff > 3/100 then (false, 0) else
      let segment_between := (closes.drop i0).take (i1 - i0)
      if segment_between.isEmpty then (false, 0) else
      let trough := minQ segment_between
      let trough_depth := (max p0 p1 - trough) / max p0 p1
      if trough_depth < 1/50 then (false, 0) else
      let current_price := closes.getD (closes.length - 1) 0
      let price_from_peak := (p1 - current_price) / p1
      let confidence := min 1 ((2/5) * (1 - peak_diff / (3/100)) +
        (3/10) * min 1 (trough_depth / (1/20)) +
        (3/10) * min 1 (price_from_peak / (1/20)))
      (decide (confidence > 1/2), confidence)
    else (false, 0)
  | _ => (false, 0)

/-- `PatternDetector.detect_double_top`. -/
def detect_double_top (df : Frame) : Bool × ℚ :=
  if df.bars.length < 30 then (false, 0)
  else doubleTopCore (lastN 30 (closesOf df))

/-- Body of `detect_double_bottom` on the 30-bar tail of closes; troughs
are `find_peaks(-closes, distance=5)`. -/
def doubleBottomCore (closes : List ℚ) : Bool × ℚ :=
  let troughs := findPeaks (closes.map fun c => -c)
  if troughs.length < 2 then (false, 0) else
  match troughs.drop (troughs.length - 2) with
  | [i0, i1] =>
    if i0 < closes.length ∧ i1 < closes.length then
      let t0 := closes.getD i0 0
      let t1 := closes.getD i1 0
      let trough_diff := |t0 - t1| / t0
      if trough_diff > 3/100 then (false, 0) else
      let segment_between := (closes.drop i0).take (i1 - i0)
      if segment_between.isEmpty then (false, 0) else
      let peak := maxQ segment_between
      let peak_height := (peak - min t0 t1) / min t0 t1
      if peak_height < 1/50 then (false, 0) else
      let current_price := closes.getD (closes.length - 1) 0
      let price_from_trough := (current_price - t1) / t1
      let confidence := min 1 ((2/5) * (1 - trough_diff / (3/100)) +
        (3/10) * min 1 (peak_height / (1/20)) +
        (3/10) * min 1 (price_from_trough / (1/20)))
      (decide (confidence > 1/2), confidence)
    else (false, 0)
  | _ => (false, 0)

/-- `PatternDetector.detect_double_bottom`. -/
def detect_double_bottom (df : Frame) : Bool × ℚ :=
  if df.bars.length < 30 then (false, 0)
  else doubleBottomCore (lastN 30 (closesOf df))

/-- `PatternDetector.detect_gap_up`. -/
def detect_gap_up (df : Frame) : Bool × ℚ :=
  if df.bars.length < 2 then (false, 0) else
  let yesterday_high := (highsOf df).getD (df.bars.length - 2) 0
  let today_low := (lowsOf df).getD (df.bars.length - 1) 0
  if today_low > yesterday_high then
    let gap_size := (today_low - yesterday_high) / yesterday_high
    if gap_size ≥ 1/50 then (true, min 1 (1/2 + gap_size / (1/10))) else (false, 0)
  else (false, 0)

/-- `PatternDetector.detect_gap_down`. -/
def detect_gap_down (df : Frame) : Bool × ℚ :=
  if df.bars.length < 2 then (false, 0) else
  let yesterday_low := (lowsOf df).getD (df.bars.length - 2) 0
  let today_high := (highsOf df).getD (df.bars.length - 1) 0
  if today_high < yesterday_low then
    let gap_size := (yesterday_low - today_high) / yesterday_low
    if gap_size ≥ 1/50 then (true, min 1 (1/2 + gap_size / (1/10))) else (false, 0)
  else (false, 0)

/-- `PatternDetector.detect_volume_spike`; the mean over
`iloc[-21:-1]` divides by the window length, which is the literal 20
under the length guard. -/
def detect_volume_spike (df : Frame) : Bool × ℚ :=
  if df.bars.length < 21 then (false, 0) else
  let vols := volsOf df
  let current_volume := vols.getD (vols.length - 1) 0
  let window := (vols.drop (vols.length - 21)).take 20
  let avg_volume := window.sum / 20
  if avg_volume = 0 then (false, 0) else
  let volume_ratio := current_volume / avg_volume
  if volume_ratio ≥ 2 then (true, min 1 (2/5 + volume_ratio / 10)) else (false, 0)

/-- Simple moving average of width `w` ending at index `endIdx`
(`df['Close'].rolling(window=w).mean()` read at `iloc` position `endIdx`;
only used at positions where the window is full). -/
def smaAt (closes : List ℚ) (w : ℕ) (endIdx : ℕ) : ℚ :=
  ((closes.drop (endIdx + 1 - w)).take w).sum / w

/-- `PatternDetector.detect_ma_crossover` (result part): the 20- and
50-period simple moving averages are computed over the full series, and
the last two positions are compared. -/
def detect_ma_crossover (df : Frame) (bullish : Bool) : Bool × ℚ :=
  if df.bars.length < 51 then (false, 0) else
  let closes := closesOf df
  let n := closes.length
  let sma20_current := smaAt closes 20 (n - 1)
  let sma20_previous := smaAt closes 20 (n - 2)
  let sma50_current := smaAt closes 50 (n - 1)
  let sma50_previous := smaAt closes 50 (n - 2)
  if bullish then
    if sma20_previous ≤ sma50_previous ∧ sma20_current > sma50_current then
      let separation := (sma20_current - sma50_current) / sma50_current
      (true, min 1 (3/5 + separation / (1/50)))
    else (false, 0)
  else
    if sma20_previous ≥ sma50_previous ∧ sma20_current < sma50_current then
      let separation := (sma50_current - sma20_current) / sma50_current
      (true, min 1 (3/5 + separation / (1/50)))
    else (false, 0)

/-! ## Frame effects of the classifiers

The state of the argument `DataFrame` after each `detect_*` call.
Nine of the ten methods never assign into `df`, so their effect is the
identity; `detect_ma_crossover` executes `df['SMA_20'] = ...` and
`df['SMA_50'] = ...` before reading them (after its length guard, which
returns early), so its effect adds or overwrites those two columns. -/

/-- Column values of `series.rolling(window=w).mean()`: `NaN` (`none`)
until the window is full, then the mean of the trailing `w` values. -/
def rollingMeanCol (w : ℕ) (l : List ℚ) : List (Option ℚ) :=
  (List.range l.length).map fun i =>
    if i + 1 < w then none else some (((l.drop (i + 1 - w)).take w).sum / w)

/-- Pandas column assignment `df[name] = col`: overwrite the column in
place if it exists, otherwise append it. -/
def setCol (df : Frame) (name : String) (col : List (Option ℚ)) : Frame :=
  { df with
    extra :=
      if (df.extra.lookup name).isSome then
        df.extra.map fun p => if p.1 = name then (name, col) else p
      else df.extra ++ [(name, col)] }

/-- Frame after `detect_bull_flag` (the method only reads `df`). -/
def frameAfter_bull_flag (df : Frame) : Frame := df

/-- Frame after `detect_bear_flag` (the method only reads `df`). -/
def frameAfter_bear_flag (df : Frame) : Frame := df

/-- Frame after `detect_head_shoulders` (the method only reads `df`). -/
def frameAfter_head_shoulders (df : Frame) : Frame := df

/-- Frame after `detect_double_top` (the method only reads `df`). -/
def frameAfter_double_top (df : Frame) : Frame := df

/-- Frame after `detect_double_bottom` (the method only reads `df`). -/
def frameAfter_double_bottom (df : Frame) : Frame := df

/-- Frame after `detect_gap_up` (the method only reads `df`). -/
def frameAfter_gap_up (df : Frame) : Frame := df

/-- Frame after `detect_gap_down` (the method only reads `df`). -/
def frameAfter_gap_down (df : Frame) : Frame := df

/-- Frame after `detect_volume_spike` (the method only reads `df`). -/
def frameAfter_volume_spike (df : Frame) : Frame := df

/-- Frame after `detect_ma_crossover`: past the length guard the method
assigns the `SMA_20` and then the `SMA_50` column into its argument
(independently of the `bullish` flag). -/
def frameAfter_ma_crossover (df : Frame) : Frame :=
  if df.bars.length < 51 then df
  else
    setCol (setCol df "SMA_20" (rollingMeanCol 20 (closesOf df)))
      "SMA_50" (rollingMeanCol 50 (closesOf df))

/-! ## Instrumented (division-checked) classifier variants

The source has explicit guards for a zero consolidation range and a zero
average volume, but none for a zero price appearing as a denominator.
numpy floats do not raise on division by zero (they produce `inf`/`nan`),
so such a division is genuinely evaluated and its result propagates.
These variants thread every division through `divQ`, returning `none`
exactly when the method evaluates a division whose denominator is zero,
and `some r` (with `r` the `(found, confidence)` pair of the rational
model) otherwise. -/

/-- Division instrumented to report a zero denominator. -/
def divQ (a b : ℚ) : Option ℚ := if b = 0 then none else some (a / b)

/-- Instrumented `detect_bull_flag`. -/
def bull_flag_checked (df : Frame) : Option (Bool × ℚ) :=
  if df.bars.length < 30 then some (false, 0) else
  let closes := lastN 30 (closesOf df)
  let firstHalf := closes.take 15
  match divQ (firstHalf.getD (firstHalf.length - 1) 0 - firstHalf.getD 0 0)
      (firstHalf.getD 0 0) with
  | none => none
  | some flagpole_gain =>
    if flagpole_gain < 1/20 then some (false, 0) else
    let secondHalf := closes.drop 15
    match divQ (secondHalf.getD (secondHalf.length - 1) 0 - secondHalf.getD 0 0)
        (secondHalf.getD 0 0) with
    | none => none
    | some consolidation_change =>
      if consolidation_change < -(1/20) ∨ consolidation_change > 1/50 then some (false, 0) else
      let recent_price := closes.getD (closes.length - 1) 0
      let consolidation_high := maxQ secondHalf
      let consolidation_low := minQ secondHalf
      let consolidation_range := consolidation_high - consolidation_low
      if consolidation_range = 0 then some (false, 0) else
      match divQ (recent_price - consolidation_low) consolidation_range with
      | none => none
      | some position_in_range =>
        let confidence := min 1 ((3/10) * min 1 (flagpole_gain / (3/20)) +
          (2/5) * (1 - |consolidation_change| / (1/20)) + (3/10) * position_in_range)
        some (decide (confidence > 1/2), confidence)

/-- Instrumented `detect_volume_spike` (the mean's division by the window
length 20 is not a zero-denominator site). -/
def volume_spike_checked (df : Frame) : Option (Bool × ℚ) :=
  if df.bars.length < 21 then some (false, 0) else
  let vols := volsOf df
  let current_volume := vols.getD (vols.length - 1) 0
  let window := (vols.drop (vols.length - 21)).take 20
  let avg_volume := window.sum / 20
  if avg_volume = 0 then some (false, 0) else
  match divQ current_volume avg_volume with
  | none => none
  | some volume_ratio =>
    if volume_ratio ≥ 2 then some (true, min 1 (2/5 + volume_ratio / 10))
    else some (false, 0)

/-- Instrumented `detect_gap_up`. -/
def gap_up_checked (df : Frame) : Option (Bool × ℚ) :=
  if df.bars.length < 2 then some (false, 0) else
  let yesterday_high := (highsOf df).getD (df.bars.length - 2) 0
  let today_low := (lowsOf df).getD (df.bars.length - 1) 0
  if today_low > yesterday_high then
    match divQ (today_low - yesterday_high) yesterday_high with
    | none => none
    | some gap_size =>
      if gap_size ≥ 1/50 then some (true, min 1 (1/2 + gap_size / (1/10)))
      else some (false, 0)
  else some (false, 0)

/-! ## The Marketstack client (`marketstack_client.py`)

State of a `MarketstackClient`: the two cache dictionaries
(`self.cache` and `self.cache_timestamps`) are only ever written
together (`_save_to_cache`) and cleared together (`clear_cache`), so
they are modelled as one association list from cache key to
`(fetchedAt, payload)`. Time is passed in explicitly (`now` stands for
`time.time()`); the rate-limiting sleep has no effect on this state.
The upstream interaction of one call to `requests.get` is a parameter:
either a timeout, a (non-timeout) network error, or a delivered HTTP
response with a status and a parsed JSON body, the body being `none`
when the `'data'` key is absent and otherwise the list of per-bar
records. -/

/-- One record of the upstream response's `data` list: a symbol, a
sortable date, and the five OHLCV fields (collected as a `Bar`). -/
structure EodRecord where
  symbol : String
  date : ℕ
  bar : Bar
deriving DecidableEq

/-- The parsed batch payload: `Dict[str, pd.DataFrame]`. -/
def Payload := List (String × Frame)
deriving DecidableEq

/-- Payload emptiness (an empty Python dict is falsy). -/
def Payload.isEmpty (p : Payload) : Bool := List.isEmpty p

/-- One upstream interaction, as seen by `_make_request`. -/
inductive UpstreamResponse where
  | timeout
  | netError (msg : String)
  | http (status : ℕ) (body : Option (List EodRecord))
deriving DecidableEq

/-- Mutable state of a `MarketstackClient`. -/
structure ClientState where
  cache : List (String × (ℚ × Payload))
  apiCallsMade : ℕ
  lastRequestTime : Option ℚ
deriving DecidableEq

/-- Python string interpolation of an optional argument (`None` prints as
`"None"`). -/
def pyOptStr : Option String → String
  | none => "None"
  | some s => s

/-- Insert a string into an ascending list (helper of `sortStrings`). -/
def insertStr (s : String) : List String → List String
  | [] => [s]
  | x :: xs => if s ≤ x then s :: x :: xs else x :: insertStr s xs

/-- Python `sorted` on strings (ascending lexicographic). -/
def sortStrings (l : List String) : List String := l.foldr insertStr []

/-- The cache key of `get_eod_data_batch`:
`f"eod_batch_{','.join(sorted(symbols))}_{date_from}_{date_to}_{limit}"`. -/
def eodCacheKey (symbols : List String) (dateFrom dateTo : Option String) (lim : ℕ) : String :=
  "eod_batch_" ++ String.intercalate "," (sortStrings symbols) ++ "_" ++
    pyOptStr dateFrom ++ "_" ++ pyOptStr dateTo ++ "_" ++ toString lim

/-- The cache key of `get_intraday_data_batch`:
`f"intraday_batch_{','.join(sorted(symbols))}_{interval}_{date_from}_{date_to}_{limit}"`. -/
def intradayCacheKey (symbols : List String) (interval : String)
    (dateFrom dateTo : Option String) (lim : ℕ) : String :=
  "intraday_batch_" ++ String.intercalate "," (sortStrings symbols) ++ "_" ++ interval ++
    "_" ++ pyOptStr dateFrom ++ "_" ++ pyOptStr dateTo ++ "_" ++ toString lim

/-- `_get_from_cache` composed with `_is_cache_valid`: the stored payload
if the key is present and the entry is younger than
`self.cache_duration = 900` seconds, else `None`. -/
def cacheLookup (st : ClientState) (now : ℚ) (key : String) : Option Payload :=
  match st.cache.lookup key with
  | some (t, p) => if now - t < 900 then some p else none
  | none => none

/-- Dictionary update (`self.cache[key] = ...` plus the timestamp twin). -/
def cacheInsert (c : List (String × (ℚ × Payload))) (key : String) (v : ℚ × Payload) :
    List (String × (ℚ × Payload)) :=
  match c with
  | [] => [(key, v)]
  | (k, w) :: rest => if k = key then (k, v) :: rest else (k, w) :: cacheInsert rest key v

/-- Group the records by symbol, preserving first-occurrence symbol order
and record order within a symbol (the `for item in data['data']` loop). -/
def addRecord (acc : List (String × List EodRecord)) (r : EodRecord) :
    List (String × List EodRecord) :=
  match acc with
  | [] => [(r.symbol, [r])]
  | (s, rs) :: rest =>
    if s = r.symbol then (s, rs ++ [r]) :: rest else (s, rs) :: addRecord rest r

/-- All records grouped by symbol. -/
def groupBySymbol (records : List EodRecord) : List (String × List EodRecord) :=
  records.foldl addRecord []

/-- Insert a record into a list kept ascending by date (equal dates stay
behind earlier records). -/
def insertByDate (r : EodRecord) : List EodRecord → List EodRecord
  | [] => [r]
  | x :: xs => if r.date < x.date then r :: x :: xs else x :: insertByDate r xs

/-- `df.sort_values('Date')` on one symbol's records. -/
def sortByDate (l : List EodRecord) : List EodRecord := l.foldr insertByDate []

/-- Parse a `data` list into the per-symbol `DataFrame` dictionary (the
date-indexing and `Date`-column drop leave exactly the OHLCV rows). -/
def parseRecords (records : List EodRecord) : Payload :=
  (groupBySymbol records).map fun p => (p.1, Frame.mk ((sortByDate p.2).map EodRecord.bar) [])

/-- The cache-miss path of `get_eod_data_batch`: `_make_request('eod', ...)`
followed by parsing and caching. On a delivered response the counter
`self.api_calls_made` and `self.last_request_time` advance; a timeout or
network error raises out of `requests.get` before either update. A
non-200 status raises after the update; a 200 body without `'data'`
returns the empty dictionary without caching it; otherwise the parsed
payload is cached and returned. -/
def eodFetchMiss (st : ClientState) (now : ℚ) (key : String) (resp : UpstreamResponse) :
    Except String Payload × ClientState :=
  match resp with
  | .timeout => (.error "Request timed out. Please try again.", st)
  | .netError m => (.error ("Network error: " ++ m), st)
  | .http status body =>
    let st1 : ClientState :=
      { st with apiCallsMade := st.apiCallsMade + 1, lastRequestTime := some now }
    if status = 200 then
      match body with
      | none => (.ok [], st1)
      | some records =>
        let result := parseRecords records
        (.ok result, { st1 with cache := cacheInsert st1.cache key (now, result) })
    else if status = 429 then
      (.error "Rate limit exceeded. Please wait before making more requests.", st1)
    else
      (.error ("API Error: " ++ toString status), st1)

/-- `MarketstackClient.get_eod_data_batch`. Note `if cached_data:` — the
cached payload is returned only when it is truthy, i.e. a nonempty
dictionary; an empty cached payload falls through to the upstream call. -/
def get_eod_data_batch (st : ClientState) (now : ℚ) (symbols : List String)
    (dateFrom dateTo : Option String) (lim : ℕ) (resp : UpstreamResponse) :
    Except String Payload × ClientState :=
  let key := eodCacheKey symbols dateFrom dateTo lim
  match cacheLookup st now key with
  | some payload =>
    if payload.isEmpty then eodFetchMiss st now key resp else (.ok payload, st)
  | none => eodFetchMiss st now key resp

/-! ## The scan pipeline of `main.py`

Both `/api/scan` and `/api/scan-stream` iterate the fetched dictionary in
order, skip symbols with an empty or sub-20-bar frame, dispatch on the
pattern name, collect one result dict per found pattern, and finally run
`results.sort(key=lambda x: x['confidence'], reverse=True)` — Python's
stable sort, descending by the stored confidence, with no further key. -/

/-- One entry of `results` in `scan_pattern` / `scan_pattern_stream`. -/
structure ScanResult where
  ticker : String
  confidence : ℚ
  current_price : ℚ
  price_change : ℚ
  volume : ℤ
deriving DecidableEq

/-- Floor of a rational, written out explicitly (`Int.fdiv` is floor
division). -/
def ratFloor (q : ℚ) : ℤ := Int.fdiv q.num (q.den : ℤ)

/-- Round half to even, Python's `round` on the rational model (the float
original also rounds ties to even, on the binary value). -/
def roundHalfEven (q : ℚ) : ℤ :=
  let f := ratFloor q
  if q - f < 1/2 then f
  else if q - f > 1/2 then f + 1
  else if f % 2 = 0 then f else f + 1

/-- Python `round(x, 2)`. -/
def pyRound2 (q : ℚ) : ℚ := (roundHalfEven (q * 100) : ℚ) / 100

/-- Python `int(x)`: truncation toward zero. -/
def truncToInt (q : ℚ) : ℤ := q.num / (q.den : ℤ)

/-- The `if pattern == ... elif ...` dispatch shared by both endpoints;
an unknown pattern name leaves `(pattern_found, confidence) = (False, 0)`. -/
def detectByName (pattern : String) (df : Frame) : Bool × ℚ :=
  if pattern = "bull_flag" then detect_bull_flag df
  else if pattern = "bear_flag" then detect_bear_flag df
  else if pattern = "head_shoulders" then detect_head_shoulders df
  else if pattern = "double_top" then detect_double_top df
  else if pattern = "double_bottom" then detect_double_bottom df
  else if pattern = "gap_up" then detect_gap_up df
  else if pattern = "gap_down" then detect_gap_down df
  else if pattern = "volume_spike" then detect_volume_spike df
  else if pattern = "ma_crossover_bullish" then detect_ma_crossover df true
  else if pattern = "ma_crossover_bearish" then detect_ma_crossover df false
  else (false, 0)

/-- The result dict appended for a found pattern. -/
def mkScanResult (ticker : String) (df : Frame) (conf : ℚ) : ScanResult :=
  let current_price := (closesOf df).getD (df.bars.length - 1) 0
  let previous_price :=
    if df.bars.length > 1 then (closesOf df).getD (df.bars.length - 2) 0 else current_price
  let price_change :=
    if previous_price ≠ 0 then (current_price - previous_price) / previous_price * 100 else 0
  { ticker := ticker
    confidence := pyRound2 (conf * 100)
    current_price := pyRound2 current_price
    price_change := pyRound2 price_change
    volume := truncToInt ((volsOf df).getD (df.bars.length - 1) 0) }

/-- The unsorted `results` list, in dictionary iteration order. -/
def scanResults (payload : Payload) (pattern : String) : List ScanResult :=
  List.filterMap
    (fun p : String × Frame =>
      if p.2.bars.isEmpty ∨ p.2.bars.length < 20 then none
      else
        let r := detectByName pattern p.2
        if r.1 then some (mkScanResult p.1 p.2 r.2) else none)
    payload

/-- Stable insertion (before the first element of not-larger confidence)
realising Python's stable `list.sort(key=..., reverse=True)`. -/
def insertDescBy (r : ScanResult) : List ScanResult → List ScanResult
  | [] => [r]
  | x :: xs => if r.confidence ≥ x.confidence then r :: x :: xs else x :: insertDescBy r xs

/-- `results.sort(key=lambda x: x['confidence'], reverse=True)`: the
stable descending sort by confidence (any stable sort with this key
produces the same output as Python's). -/
def pySortDesc : List ScanResult → List ScanResult
  | [] => []
  | x :: xs => insertDescBy x (pySortDesc xs)

/-- The `matches` list returned by `scan_pattern`, also the `results`
field of the final event of `scan_pattern_stream`. -/
def scanSorted (payload : Payload) (pattern : String) : List ScanResult :=
  pySortDesc (scanResults payload pattern)

/-! ## Spec-side transform for the gap symmetry claim: reverse the bar
order and swap each bar's high/low roles. -/

/-- Swap the `High` and `Low` fields of a bar. -/
def swapHL (b : Bar) : Bar := { b with High := b.Low, Low := b.High }

/-- Reverse the series and swap high/low roles in every bar. -/
def revSwap (df : Frame) : Frame := { df with bars := (df.bars.map swapHL).reverse }

/-! ## Result predicates for the confidence/threshold claim. -/

/-- The confidence component lies in `[0, 1]`. -/
def confInUnit (r : Bool × ℚ) : Prop := 0 ≤ r.2 ∧ r.2 ≤ 1

/-- The confidence component is at most `1`. -/
def confAtMostOne (r : Bool × ℚ) : Prop := r.2 ≤ 1

/-- The found flag holds exactly when the confidence exceeds the fixed
acceptance threshold `0.5`. -/
def foundIffAboveHalf (r : Bool × ℚ) : Prop := r.1 = true ↔ 1/2 < r.2

/-! ## Concrete inputs used by counterexamples and witnesses -/

/-- Thirty closes with local maxima at indices 8 (value 100) and 20
(value 101) and a final close of 200, far above both peaks. -/
def dtCloses : List ℚ :=
  [90, 90, 90, 90, 90, 90, 90, 90, 100, 90, 90, 90, 90, 90, 90,
   90, 90, 90, 90, 90, 101, 90, 90, 90, 90, 90, 90, 90, 90, 200]

/-- Thirty-bar frame realising `dtCloses`. -/
def dtDf : Frame := { bars := dtCloses.map cbar, extra := [] }

/-- Two flat bars 100 then 102: a 2% gap up. -/
def c4df : Frame := { bars := [cbar 100, cbar 102], extra := [] }

/-- Two flat bars 100 then 103: a 3% gap up. -/
def c4wdf : Frame := { bars := [cbar 100, cbar 103], extra := [] }

/-- Fifty-one identical bars (enough history for the MA classifier). -/
def ma51Df : Frame := { bars := List.replicate 51 (cbar 100), extra := [] }

/-- A zero-price yesterday followed by a positive today: the gap-up
division's denominator is zero. -/
def zeroPriceDf : Frame := { bars := [cbar 0, cbar 1], extra := [] }

/-- Thirty identical bars (constant closes, so the consolidation range is
zero). -/
def constDf30 : Frame := { bars := List.replicate 30 (cbar 100), extra := [] }

/-- Twenty-one bars of zero volume. -/
def zeroVolDf : Frame := { bars := List.replicate 21 (cbar 5), extra := [] }

/-- The empty frame. -/
def emptyFrame : Frame := { bars := [], extra := [] }

/-- Thirty distinct bars for the prefix-independence witness. -/
def wBars : List Bar := (List.range 30).map fun i => cbar (100 + i)

/-- A frame of exactly the thirty `wBars`. -/
def wdfA : Frame := { bars := wBars, extra := [] }

/-- The same thirty bars with one extra bar prepended. -/
def wdfB : Frame := { bars := cbar 7 :: wBars, extra := [] }

/-- A one-bar frame with positive prices. -/
def oneBarDf : Frame := { bars := [cbar 1], extra := [] }

/-- A client state with nothing cached and no calls made. -/
def emptyState : ClientState := { cache := [], apiCallsMade := 0, lastRequestTime := none }

/-- A client state holding a fresh cache entry whose payload is the empty
dictionary, under the fingerprint of a `["AAPL"]` EOD batch. -/
def emptyCachedState : ClientState :=
  { cache := [(eodCacheKey ["AAPL"] none none 100, (0, ([] : Payload)))],
    apiCallsMade := 0, lastRequestTime := none }

/-- A one-symbol payload with one bar. -/
def onePayload : Payload := [("AAPL", { bars := [cbar 1], extra := [] })]

/-- A client state holding a fresh nonempty cache entry for the
`["AAPL"]` EOD fingerprint. -/
def hitState : ClientState :=
  { cache := [(eodCacheKey ["AAPL"] none none 100, (0, onePayload))],
    apiCallsMade := 3, lastRequestTime := none }

/-- Twenty bars ending in a 5% gap up (19 flat bars at 100, then a bar
with low 105). -/
def gapFrame : Frame :=
  { bars := List.replicate 19 (cbar 100) ++
      [{ Open := 105, High := 106, Low := 105, Close := 105, Volume := 1000 }],
    extra := [] }

/-- Two symbols, dictionary order `ZZZ` before `AAA`, identical frames. -/
def tiePayload : Payload := [("ZZZ", gapFrame), ("AAA", gapFrame)]

/-! ## Helper lemmas -/

theorem foldl_min_le_init (l : List ℚ) (b : ℚ) : l.foldl min b ≤ b := by
  induction l generalizing b with
  | nil => exact le_refl b
  | cons x xs ih => exact le_trans (ih (min b x)) (min_le_left b x)

theorem foldl_min_le_mem (l : List ℚ) (b a : ℚ) (h : a ∈ l) : l.foldl min b ≤ a := by
  induction l generalizing b with
  | nil => cases h
  | cons x xs ih =>
    rcases List.mem_cons.mp h with h | h
    · subst h
      exact le_trans (foldl_min_le_init xs (min b a)) (min_le_right b a)
    · exact ih (min b x) h

theorem init_le_foldl_max (l : List ℚ) (b : ℚ) : b ≤ l.foldl max b := by
  induction l generalizing b with
  | nil => exact le_refl b
  | cons x xs ih => exact le_trans (le_max_left b x) (ih (max b x))

theorem mem_le_foldl_max (l : List ℚ) (b a : ℚ) (h : a ∈ l) : a ≤ l.foldl max b := by
  induction l generalizing b with
  | nil => cases h
  | cons x xs ih =>
    rcases List.mem_cons.mp h with h | h
    · subst h
      exact le_trans (le_max_right b a) (init_le_foldl_max xs (max b a))
    · exact ih (max b x) h

theorem minQ_le_of_mem {l : List ℚ} {a : ℚ} (h : a ∈ l) : minQ l ≤ a := by
  cases l with
  | nil => cases h
  | cons x xs =>
    rcases List.mem_cons.mp h with h | h
    · exact h ▸ foldl_min_le_init xs x
    · exact foldl_min_le_mem xs x a h

theorem le_maxQ_of_mem {l : List ℚ} {a : ℚ} (h : a ∈ l) : a ≤ maxQ l := by
  cases l with
  | nil => cases h
  | cons x xs =>
    rcases List.mem_cons.mp h with h | h
    · exact h ▸ init_le_foldl_max xs x
    · exact mem_le_foldl_max xs x a h

theorem getD_mem_of_lt {l : List α} {i : ℕ} (h : i < l.length) (d : α) : l.getD i d ∈ l := by
  induction l generalizing i with
  | nil => simp at h
  | cons x xs ih =>
    cases i with
    | zero => exact List.mem_cons_self x xs
    | succ j => exact List.mem_cons_of_mem x (ih (Nat.lt_of_succ_lt_succ h))

theorem getD_map_of_lt (f : α → β) {l : List α} {i : ℕ} (h : i < l.length) (d : β) (d0 : α) :
    (l.map f).getD i d = f (l.getD i d0) := by
  induction l generalizing i with
  | nil => simp at h
  | cons x xs ih =>
    cases i with
    | zero => rfl
    | succ j => exact ih (Nat.lt_of_succ_lt_succ h)

theorem getD_drop_add (l : List α) (n i : ℕ) (d : α) :
    (l.drop n).getD i d = l.getD (n + i) d := by
  induction l generalizing n with
  | nil => simp
  | cons x xs ih =>
    cases n with
    | zero => simp
    | succ m => rw [Nat.succ_add]; exact ih m

theorem lastN_length {l : List α} {n : ℕ} (h : n ≤ l.length) : (lastN n l).length = n := by
  simp [lastN, Nat.sub_sub_self h]

theorem lastN_subset (n : ℕ) (l : List α) : lastN n l ⊆ l := List.drop_subset _ l

theorem lastN_map (f : α → β) (n : ℕ) (l : List α) :
    lastN n (l.map f) = (lastN n l).map f := by
  simp [lastN, List.map_drop]


/-! ## Claim C6: minimum-length guards -/

/-- Claim C6: for every classifier and every series strictly shorter than
its stated minimum length (30 for bull/bear flag, 40 for
head-and-shoulders, 30 for double top/bottom, 2 for gap up/down, 21 for
volume spike, 51 for MA crossover), `detect` returns `found = false`,
`confidence = 0` (the guard returns before any computation, so nothing
can raise). -/
theorem insufficient_data_guards (df : Frame) :
    (df.bars.length < 30 → detect_bull_flag df = (false, 0)) ∧
    (df.bars.length < 30 → detect_bear_flag df = (false, 0)) ∧
    (df.bars.length < 40 → detect_head_shoulders df = (false, 0)) ∧
    (df.bars.length < 30 → detect_double_top df = (false, 0)) ∧
    (df.bars.length < 30 → detect_double_bottom df = (false, 0)) ∧
    (df.bars.length < 2 → detect_gap_up df = (false, 0)) ∧
    (df.bars.length < 2 → detect_gap_down df = (false, 0)) ∧
    (df.bars.length < 21 → detect_volume_spike df = (false, 0)) ∧
    (∀ b : Bool, df.bars.length < 51 → detect_ma_crossover df b = (false, 0)) := by
  refine ⟨fun h => ?_, fun h => ?_, fun h => ?_, fun h => ?_, fun h => ?_, fun h => ?_,
    fun h => ?_, fun h => ?_, fun b h => ?_⟩
  · simp [detect_bull_flag, h]
  · simp [detect_bear_flag, h]
  · simp [detect_head_shoulders, h]
  · simp [detect_double_top, h]
  · simp [detect_double_bottom, h]
  · simp [detect_gap_up, h]
  · simp [detect_gap_down, h]
  · simp [detect_volume_spike, h]
  · simp [detect_ma_crossover, h]

/-- Witness for `insufficient_data_guards` at the empty frame. -/
theorem insufficient_data_guards_witness :
    detect_bull_flag emptyFrame = (false, 0) ∧
    detect_bear_flag emptyFrame = (false, 0) ∧
    detect_head_shoulders emptyFrame = (false, 0) ∧
    detect_double_top emptyFrame = (false, 0) ∧
    detect_double_bottom emptyFrame = (false, 0) ∧
    detect_gap_up emptyFrame = (false, 0) ∧
    detect_gap_down emptyFrame = (false, 0) ∧
    detect_volume_spike emptyFrame = (false, 0) ∧
    detect_ma_crossover emptyFrame true = (false, 0) ∧
    detect_ma_crossover emptyFrame false = (false, 0) :=
  ⟨(insufficient_data_guards emptyFrame).1 (by decide),
   (insufficient_data_guards emptyFrame).2.1 (by decide),
   (insufficient_data_guards emptyFrame).2.2.1 (by decide),
   (insufficient_data_guards emptyFrame).2.2.2.1 (by decide),
   (insufficient_data_guards emptyFrame).2.2.2.2.1 (by decide),
   (insufficient_data_guards emptyFrame).2.2.2.2.2.1 (by decide),
   (insufficient_data_guards emptyFrame).2.2.2.2.2.2.1 (by decide),
   (insufficient_data_guards emptyFrame).2.2.2.2.2.2.2.1 (by decide),
   (insufficient_data_guards emptyFrame).2.2.2.2.2.2.2.2 true (by decide),
   (insufficient_data_guards emptyFrame).2.2.2.2.2.2.2.2 false (by decide)⟩

/-! ## Claim C10: the bull-flag classifier depends only on the trailing
30 bars -/

/-- Claim C10: for every two series of length at least 30 whose final 30
bars are equal, `detect_bull_flag` returns the same `(found, confidence)`
pair on both: the classifier reads only `df.tail(30)`. -/
theorem bull_flag_depends_only_on_tail (df1 df2 : Frame)
    (h1 : 30 ≤ df1.bars.length) (h2 : 30 ≤ df2.bars.length)
    (he : lastN 30 df1.bars = lastN 30 df2.bars) :
    detect_bull_flag df1 = detect_bull_flag df2 := by
  have e1 : lastN 30 (closesOf df1) = lastN 30 (closesOf df2) := by
    simp only [closesOf, lastN_map, he]
  unfold detect_bull_flag
  rw [if_neg (by omega), if_neg (by omega), e1]

/-- Witness for `bull_flag_depends_only_on_tail`: a 30-bar frame and the
same frame with one extra leading bar. -/
theorem bull_flag_depends_only_on_tail_witness :
    30 ≤ wdfA.bars.length ∧ 30 ≤ wdfB.bars.length ∧
    lastN 30 wdfA.bars = lastN 30 wdfB.bars ∧
    detect_bull_flag wdfA = detect_bull_flag wdfB :=
  ⟨by decide, by decide, by decide,
   bull_flag_depends_only_on_tail wdfA wdfB (by decide) (by decide) (by decide)⟩

/-! ## Claim C3: purity of the classifiers -/

/-- Claim C3 counterexample: `detect_ma_crossover` mutates its input
frame — past the length guard it assigns the `SMA_20` and `SMA_50`
columns into `df`, so the frame after the call differs from the frame
before it. -/
theorem ma_crossover_mutates_counterexample :
    frameAfter_ma_crossover ma51Df ≠ ma51Df := by decide

/-- Claim C3 (amended): nine of the ten classifiers perform no store into
their argument, so the frame after any of those calls equals the frame
before it; `detect_ma_crossover` instead writes the `SMA_20` and
`SMA_50` columns into its argument, leaving the OHLCV bars (and hence
every price and volume value) unchanged but not the frame itself. -/
theorem frame_effects_of_classifiers :
    (∀ df : Frame, frameAfter_bull_flag df = df) ∧
    (∀ df : Frame, frameAfter_bear_flag df = df) ∧
    (∀ df : Frame, frameAfter_head_shoulders df = df) ∧
    (∀ df : Frame, frameAfter_double_top df = df) ∧
    (∀ df : Frame, frameAfter_double_bottom df = df) ∧
    (∀ df : Frame, frameAfter_gap_up df = df) ∧
    (∀ df : Frame, frameAfter_gap_down df = df) ∧
    (∀ df : Frame, frameAfter_volume_spike df = df) ∧
    (∀ df : Frame, (frameAfter_ma_crossover df).bars = df.bars) := by
  refine ⟨fun _ => rfl, fun _ => rfl, fun _ => rfl, fun _ => rfl, fun _ => rfl,
    fun _ => rfl, fun _ => rfl, fun _ => rfl, fun df => ?_⟩
  unfold frameAfter_ma_crossover
  split <;> rfl

/-! ## Claim C4: gap-up/gap-down exclusivity and the reverse-and-swap
transform -/

/-- Claim C4 counterexample: on the 2-bar series with flat bars 100 then
102, `detect_gap_up` fires (the gap is exactly 2% of yesterday's high),
but on the reversed/high-low-swapped series `detect_gap_down` does not
fire: the transformed gap is measured against the transformed
yesterday's low 102, giving 2/102 < 2%, so neither the found flag nor
the confidence is preserved. -/
theorem gap_symmetry_counterexample :
    (detect_gap_up c4df).1 = true ∧ (detect_gap_down (revSwap c4df)).1 = false := by decide

/-- Claim C4 (amended): on any series whose bars satisfy `low ≤ high`,
`detect_gap_up` and `detect_gap_down` never both fire. Reversing a 2-bar
series and swapping each bar's high/low roles turns the gap-up condition
into the gap-down condition, but the gap is renormalized by the
transformed yesterday's low (the original today's high) instead of the
original yesterday's high, so the transform yields a detected gap-down
only when the renormalized gap still reaches the 2% threshold, and the
resulting confidence is computed from the renormalized gap (in general
different from the gap-up confidence). -/
theorem gap_exclusivity_and_transform :
    (∀ df : Frame, (∀ b ∈ df.bars, b.Low ≤ b.High) →
      ¬((detect_gap_up df).1 = true ∧ (detect_gap_down df).1 = true)) ∧
    (∀ (b0 b1 : Bar) (ex : List (String × List (Option ℚ))),
      b0.Low ≤ b0.High → b1.Low ≤ b1.High → 0 < b1.High →
      (detect_gap_up ⟨[b0, b1], ex⟩).1 = true →
      detect_gap_down (revSwap ⟨[b0, b1], ex⟩) =
        if (1:ℚ)/50 ≤ (b1.High - b0.Low) / b1.High then
          (true, min 1 (1/2 + ((b1.High - b0.Low) / b1.High) / (1/10)))
        else (false, 0)) := by
  constructor
  · intro df hLH ⟨hu, hd⟩
    by_cases hlen : df.bars.length < 2
    · simp [detect_gap_up, hlen] at hu
    · have hn1 : df.bars.length - 1 < df.bars.length := by omega
      have hn2 : df.bars.length - 2 < df.bars.length := by omega
      have eH1 : (highsOf df).getD (df.bars.length - 1) 0 =
          (df.bars.getD (df.bars.length - 1) (cbar 0)).High :=
        getD_map_of_lt Bar.High hn1 0 (cbar 0)
      have eH2 : (highsOf df).getD (df.bars.length - 2) 0 =
          (df.bars.getD (df.bars.length - 2) (cbar 0)).High :=
        getD_map_of_lt Bar.High hn2 0 (cbar 0)
      have eL1 : (lowsOf df).getD (df.bars.length - 1) 0 =
          (df.bars.getD (df.bars.length - 1) (cbar 0)).Low :=
        getD_map_of_lt Bar.Low hn1 0 (cbar 0)
      have eL2 : (lowsOf df).getD (df.bars.length - 2) 0 =
          (df.bars.getD (df.bars.length - 2) (cbar 0)).Low :=
        getD_map_of_lt Bar.Low hn2 0 (cbar 0)
      have hb1 := hLH _ (getD_mem_of_lt hn1 (cbar 0))
      have hb2 := hLH _ (getD_mem_of_lt hn2 (cbar 0))
      rw [detect_gap_up, if_neg hlen] at hu
      rw [detect_gap_down, if_neg hlen] at hd
      rw [eH2, eL1] at hu
      rw [eL2, eH1] at hd
      dsimp only at hu hd
      by_cases hA : (df.bars.getD (df.bars.length - 1) (cbar 0)).Low >
          (df.bars.getD (df.bars.length - 2) (cbar 0)).High
      · by_cases hB : (df.bars.getD (df.bars.length - 1) (cbar 0)).High <
            (df.bars.getD (df.bars.length - 2) (cbar 0)).Low
        · linarith
        · rw [if_neg hB] at hd
          exact absurd hd (by simp)
      · rw [if_neg hA] at hu
        exact absurd hu (by simp)
  · intro b0 b1 ex h0 h1 hpos hfound
    have eu : detect_gap_up ⟨[b0, b1], ex⟩ =
        if b1.Low > b0.High then
          (if (b1.Low - b0.High) / b0.High ≥ 1/50 then
            (true, min 1 (1/2 + ((b1.Low - b0.High) / b0.High) / (1/10)))
          else (false, 0))
        else (false, 0) := rfl
    have hcond : b0.High < b1.Low := by
      by_contra hc
      rw [eu, if_neg hc] at hfound
      exact absurd hfound (by simp)
    have hlow : b0.Low < b1.High := lt_of_le_of_lt h0 (lt_of_lt_of_le hcond h1)
    have ed : detect_gap_down (revSwap ⟨[b0, b1], ex⟩) =
        if b0.Low < b1.High then
          (if (b1.High - b0.Low) / b1.High ≥ 1/50 then
            (true, min 1 (1/2 + ((b1.High - b0.Low) / b1.High) / (1/10)))
          else (false, 0))
        else (false, 0) := rfl
    rw [ed, if_pos hlow]

/-- Witness for `gap_exclusivity_and_transform`: exclusivity at the
concrete 2-bar gap-up frame, and the transform equation at flat bars 100
then 103 (whose renormalized gap 3/103 still exceeds 2%). -/
theorem gap_exclusivity_and_transform_witness :
    ¬((detect_gap_up c4df).1 = true ∧ (detect_gap_down c4df).1 = true) ∧
    detect_gap_down (revSwap ⟨[cbar 100, cbar 103], []⟩) =
      (if (1:ℚ)/50 ≤ ((cbar 103).High - (cbar 100).Low) / (cbar 103).High then
        (true, min 1 (1/2 + (((cbar 103).High - (cbar 100).Low) / (cbar 103).High) / (1/10)))
      else (false, 0)) :=
  ⟨(gap_exclusivity_and_transform).1 c4df (by decide),
   (gap_exclusivity_and_transform).2 (cbar 100) (cbar 103) [] (by decide) (by decide)
     (by decide) (by decide)⟩

/-! ## Claim C5: division-by-zero guards -/

/-- Claim C5 counterexample: a zero price used as a denominator is not
guarded. On a series whose previous bar has high 0 and whose last bar
has low 1, `detect_gap_up` reaches and evaluates the division
`(today_low - yesterday_high) / yesterday_high` with a zero denominator
(the instrumented run returns `none`), instead of short-circuiting to
`(false, 0)`; under the source's float arithmetic the quotient is `inf`
and the classifier actually returns `found = True` with confidence 1. -/
theorem zero_price_division_counterexample :
    gap_up_checked zeroPriceDf = none := by decide

/-- Claim C5 (amended): the two division-by-zero conditions that the code
guards do short-circuit — a zero consolidation range in the bull flag
and a zero 20-period average volume in the volume spike both return
`found = false, confidence = 0` without evaluating the guarded division;
a zero price used as a denominator has no guard and the division is
evaluated (see the counterexample). -/
theorem division_guard_short_circuits (df : Frame) :
    (30 ≤ df.bars.length →
      ((lastN 30 (closesOf df)).take 15).getD 0 0 ≠ 0 →
      ((lastN 30 (closesOf df)).drop 15).getD 0 0 ≠ 0 →
      maxQ ((lastN 30 (closesOf df)).drop 15) = minQ ((lastN 30 (closesOf df)).drop 15) →
      bull_flag_checked df = some (false, 0)) ∧
    (21 ≤ df.bars.length →
      (((volsOf df).drop ((volsOf df).length - 21)).take 20).sum / 20 = 0 →
      volume_spike_checked df = some (false, 0)) := by
  constructor
  · intro hlen hfh hsh hrange
    unfold bull_flag_checked
    rw [if_neg (by omega)]
    simp only [divQ, if_neg hfh, if_neg hsh]
    split_ifs with h1 h2 h3
    · rfl
    · rfl
    · rfl
    · exact absurd (sub_eq_zero.mpr hrange) h3
  · intro hlen havg
    unfold volume_spike_checked
    rw [if_neg (by omega)]
    dsimp only
    rw [if_pos havg]

/-- Witness for `division_guard_short_circuits`: thirty constant bars
(zero consolidation range) and twenty-one zero-volume bars (zero average
volume). -/
theorem division_guard_short_circuits_witness :
    bull_flag_checked constDf30 = some (false, 0) ∧
    volume_spike_checked zeroVolDf = some (false, 0) :=
  ⟨(division_guard_short_circuits constDf30).1 (by decide) (by decide) (by decide) (by decide),
   (division_guard_short_circuits zeroVolDf).2 (by decide) (by decide)⟩

/-! ## The cache-miss reduction shared by the client claims -/

theorem get_eod_miss_eq (st : ClientState) (now : ℚ) (symbols : List String)
    (dateFrom dateTo : Option String) (lim : ℕ) (resp : UpstreamResponse)
    (h : cacheLookup st now (eodCacheKey symbols dateFrom dateTo lim) = none ∨
         cacheLookup st now (eodCacheKey symbols dateFrom dateTo lim) = some []) :
    get_eod_data_batch st now symbols dateFrom dateTo lim resp =
      eodFetchMiss st now (eodCacheKey symbols dateFrom dateTo lim) resp := by
  unfold get_eod_data_batch
  dsimp only
  rcases h with h | h <;> rw [h]
  rfl

/-! ## Claim C7: surfacing of upstream failures -/

/-- Claim C7 counterexample: a delivered 200 response whose body lacks
the `data` records is not surfaced as an error — `get_eod_data_batch`
prints a warning and returns the normal empty dictionary. -/
theorem missing_data_swallowed_counterexample :
    (get_eod_data_batch emptyState 0 ["AAPL"] none none 100 (.http 200 none)).1 =
      .ok ([] : Payload) := rfl

/-- Claim C7 (amended): when the fetch reaches upstream (no truthy cache
entry), a timeout, a network error, and every non-200 status (429
included) surface as errors to the caller; but a 200 response whose
payload lacks the `data` records is returned as a normal empty result,
not an error. -/
theorem upstream_error_surfacing (st : ClientState) (now : ℚ) (symbols : List String)
    (dateFrom dateTo : Option String) (lim : ℕ)
    (h : cacheLookup st now (eodCacheKey symbols dateFrom dateTo lim) = none ∨
         cacheLookup st now (eodCacheKey symbols dateFrom dateTo lim) = some []) :
    ((get_eod_data_batch st now symbols dateFrom dateTo lim .timeout).1 =
      .error "Request timed out. Please try again.") ∧
    (∀ m, (get_eod_data_batch st now symbols dateFrom dateTo lim (.netError m)).1 =
      .error ("Network error: " ++ m)) ∧
    (∀ (status : ℕ) (body : Option (List EodRecord)), status ≠ 200 →
      ∃ msg, (get_eod_data_batch st now symbols dateFrom dateTo lim (.http status body)).1 =
        .error msg) ∧
    ((get_eod_data_batch st now symbols dateFrom dateTo lim (.http 200 none)).1 =
      .ok ([] : Payload)) := by
  refine ⟨?_, fun m => ?_, fun status body hs => ?_, ?_⟩
  · rw [get_eod_miss_eq _ _ _ _ _ _ _ h]
    rfl
  · rw [get_eod_miss_eq _ _ _ _ _ _ _ h]
    rfl
  · rw [get_eod_miss_eq _ _ _ _ _ _ _ h]
    unfold eodFetchMiss
    dsimp only
    rw [if_neg hs]
    by_cases h9 : status = 429
    · exact ⟨"Rate limit exceeded. Please wait before making more requests.", by rw [if_pos h9]⟩
    · exact ⟨"API Error: " ++ toString status, by rw [if_neg h9]⟩
  · rw [get_eod_miss_eq _ _ _ _ _ _ _ h]
    rfl

/-- Witness for `upstream_error_surfacing` at the empty client state. -/
theorem upstream_error_surfacing_witness :
    ((get_eod_data_batch emptyState 0 ["AAPL"] none none 100 .timeout).1 =
      .error "Request timed out. Please try again.") ∧
    ∃ msg, (get_eod_data_batch emptyState 0 ["AAPL"] none none 100 (.http 404 none)).1 =
      .error msg :=
  ⟨(upstream_error_surfacing emptyState 0 ["AAPL"] none none 100 (Or.inl rfl)).1,
   (upstream_error_surfacing emptyState 0 ["AAPL"] none none 100 (Or.inl rfl)).2.2.1
     404 none (by decide)⟩

/-! ## Claim C2: batch efficiency and cache hits -/

/-- Claim C2 counterexample: a fresh, unexpired cache entry whose stored
payload is the empty dictionary is not returned — `if cached_data:`
treats the empty dict as falsy, so the fetch issues another upstream
call (the counter moves from 0 to 1) despite the valid entry. -/
theorem empty_cached_payload_counterexample :
    cacheLookup emptyCachedState 0 (eodCacheKey ["AAPL"] none none 100) =
      some ([] : Payload) ∧
    (get_eod_data_batch emptyCachedState 0 ["AAPL"] none none 100
      (.http 200 (some []))).2.apiCallsMade = 1 := by decide

/-- Claim C2 (amended): a batch fetch whose fingerprint has no valid
cache entry (or a valid entry holding the empty dictionary) issues
exactly one upstream call whenever a response is delivered — the
`api_calls_made` counter increases by exactly 1 regardless of the number
of symbols M and of the status or body; a timeout or network error
raises inside `requests.get` before the counter update. A batch fetch
whose fingerprint has an unexpired cache entry with a nonempty payload
returns the stored payload unchanged and issues no upstream call. -/
theorem batch_single_call_and_cache_hit (st : ClientState) (now : ℚ)
    (symbols : List String) (dateFrom dateTo : Option String) (lim : ℕ) :
    ((cacheLookup st now (eodCacheKey symbols dateFrom dateTo lim) = none ∨
      cacheLookup st now (eodCacheKey symbols dateFrom dateTo lim) = some []) →
      ∀ (status : ℕ) (body : Option (List EodRecord)),
        (get_eod_data_batch st now symbols dateFrom dateTo lim
          (.http status body)).2.apiCallsMade = st.apiCallsMade + 1) ∧
    (∀ p : Payload, cacheLookup st now (eodCacheKey symbols dateFrom dateTo lim) = some p →
      p ≠ [] → ∀ resp, get_eod_data_batch st now symbols dateFrom dateTo lim resp =
        (.ok p, st)) := by
  constructor
  · intro h status body
    rw [get_eod_miss_eq _ _ _ _ _ _ _ h]
    unfold eodFetchMiss
    dsimp only
    by_cases h200 : status = 200
    · rw [if_pos h200]
      cases body with
      | none => rfl
      | some records => rfl
    · rw [if_neg h200]
      by_cases h9 : status = 429
      · rw [if_pos h9]
      · rw [if_neg h9]
  · intro p hp hne resp
    cases p with
    | nil => exact absurd rfl hne
    | cons a as =>
      unfold get_eod_data_batch
      dsimp only
      rw [hp]
      rfl

/-- Witness for `batch_single_call_and_cache_hit`: a cold fetch from the
empty state bumps the counter to 1, and a fetch against a fresh nonempty
entry returns the stored payload with the state unchanged. -/
theorem batch_single_call_and_cache_hit_witness :
    (get_eod_data_batch emptyState 0 ["AAPL"] none none 100
      (.http 200 none)).2.apiCallsMade = emptyState.apiCallsMade + 1 ∧
    get_eod_data_batch hitState 0 ["AAPL"] none none 100 .timeout =
      (.ok onePayload, hitState) :=
  ⟨(batch_single_call_and_cache_hit emptyState 0 ["AAPL"] none none 100).1
      (Or.inl rfl) 200 none,
   (batch_single_call_and_cache_hit hitState 0 ["AAPL"] none none 100).2
      onePayload (by decide) (by decide) .timeout⟩

/-! ## Claim C9: fingerprint invariance under symbol permutation -/

theorem insertStr_perm (s : String) (l : List String) : (insertStr s l).Perm (s :: l) := by
  induction l with
  | nil => exact List.Perm.refl _
  | cons x xs ih =>
    unfold insertStr
    split_ifs with h
    · exact List.Perm.refl _
    · exact (ih.cons x).trans (List.Perm.swap s x xs)

theorem sortStrings_perm (l : List String) : (sortStrings l).Perm l := by
  induction l with
  | nil => exact List.Perm.refl _
  | cons x xs ih => exact (insertStr_perm x _).trans (ih.cons x)

theorem insertStr_sorted (s : String) (l : List String) (h : l.Sorted (· ≤ ·)) :
    (insertStr s l).Sorted (· ≤ ·) := by
  induction l with
  | nil => simp [insertStr]
  | cons x xs ih =>
    unfold insertStr
    split_ifs with hle
    · rw [List.sorted_cons]
      refine ⟨fun b hb => ?_, h⟩
      rcases List.mem_cons.mp hb with rfl | hb
      · exact hle
      · exact le_trans hle ((List.sorted_cons.mp h).1 b hb)
    · rw [List.sorted_cons] at h ⊢
      refine ⟨fun b hb => ?_, ih h.2⟩
      have hmem : b = s ∨ b ∈ xs := by
        simpa using (insertStr_perm s xs).mem_iff.mp hb
      rcases hmem with rfl | hb2
      · exact le_of_not_le hle
      · exact h.1 b hb2

theorem sortStrings_sorted (l : List String) : (sortStrings l).Sorted (· ≤ ·) := by
  induction l with
  | nil => simp [sortStrings]
  | cons x xs ih => exact insertStr_sorted x _ ih

theorem sortStrings_eq_of_perm {l1 l2 : List String} (h : l1.Perm l2) :
    sortStrings l1 = sortStrings l2 :=
  List.eq_of_perm_of_sorted ((sortStrings_perm l1).trans (h.trans (sortStrings_perm l2).symm))
    (sortStrings_sorted l1) (sortStrings_sorted l2)

/-- Claim C9: two batch requests whose symbol lists are permutations of
each other, with equal date range and limit (and interval), produce the
same cache fingerprint for both the EOD and the intraday endpoint — the
key is built from the sorted symbol list. -/
theorem cache_key_permutation_invariant (s1 s2 : List String)
    (dateFrom dateTo : Option String) (lim : ℕ) (interval : String)
    (h : s1.Perm s2) :
    eodCacheKey s1 dateFrom dateTo lim = eodCacheKey s2 dateFrom dateTo lim ∧
    intradayCacheKey s1 interval dateFrom dateTo lim =
      intradayCacheKey s2 interval dateFrom dateTo lim := by
  unfold eodCacheKey intradayCacheKey
  rw [sortStrings_eq_of_perm h]
  exact ⟨rfl, rfl⟩

/-- Witness for `cache_key_permutation_invariant` at a two-symbol swap. -/
theorem cache_key_permutation_invariant_witness :
    eodCacheKey ["MSFT", "AAPL"] none none 100 = eodCacheKey ["AAPL", "MSFT"] none none 100 ∧
    intradayCacheKey ["MSFT", "AAPL"] "1hour" none none 100 =
      intradayCacheKey ["AAPL", "MSFT"] "1hour" none none 100 :=
  cache_key_permutation_invariant ["MSFT", "AAPL"] ["AAPL", "MSFT"] none none 100 "1hour"
    (List.Perm.swap "AAPL" "MSFT" [])

/-! ## Claim C8: ordering of the scan output -/

theorem insertDescBy_perm (r : ScanResult) (l : List ScanResult) :
    (insertDescBy r l).Perm (r :: l) := by
  induction l with
  | nil => exact List.Perm.refl _
  | cons x xs ih =>
    unfold insertDescBy
    split_ifs with h
    · exact List.Perm.refl _
    · exact (ih.cons x).trans (List.Perm.swap r x xs)

theorem pySortDesc_perm (l : List ScanResult) : (pySortDesc l).Perm l := by
  induction l with
  | nil => exact List.Perm.refl _
  | cons x xs ih => exact (insertDescBy_perm x _).trans (ih.cons x)

theorem insertDescBy_sorted (r : ScanResult) (l : List ScanResult)
    (h : l.Pairwise fun a b => b.confidence ≤ a.confidence) :
    (insertDescBy r l).Pairwise fun a b => b.confidence ≤ a.confidence := by
  induction l with
  | nil => simp [insertDescBy]
  | cons x xs ih =>
    unfold insertDescBy
    split_ifs with hge
    · rw [List.pairwise_cons]
      refine ⟨fun b hb => ?_, h⟩
      rcases List.mem_cons.mp hb with rfl | hb
      · exact hge
      · exact le_trans ((List.pairwise_cons.mp h).1 b hb) hge
    · rw [List.pairwise_cons] at h ⊢
      refine ⟨fun b hb => ?_, ih h.2⟩
      have hmem : b = r ∨ b ∈ xs := by
        simpa using (insertDescBy_perm r xs).mem_iff.mp hb
      rcases hmem with rfl | hb2
      · exact le_of_not_le hge
      · exact h.1 b hb2

theorem pySortDesc_sorted (l : List ScanResult) :
    (pySortDesc l).Pairwise fun a b => b.confidence ≤ a.confidence := by
  induction l with
  | nil => simp [pySortDesc]
  | cons x xs ih => exact insertDescBy_sorted x _ ih

theorem filter_insertDescBy (r : ScanResult) (l : List ScanResult) (c : ℚ) :
    (insertDescBy r l).filter (fun x => decide (x.confidence = c)) =
      (r :: l).filter (fun x => decide (x.confidence = c)) := by
  induction l with
  | nil => rfl
  | cons x xs ih =>
    unfold insertDescBy
    split_ifs with hge
    · rfl
    · by_cases hr : r.confidence = c
      · by_cases hx : x.confidence = c
        · exact absurd (le_of_eq (hx.trans hr.symm)) hge
        · simp [List.filter_cons, hr, hx, ih]
      · simp [List.filter_cons, hr, ih]

theorem pySortDesc_filter (l : List ScanResult) (c : ℚ) :
    (pySortDesc l).filter (fun x => decide (x.confidence = c)) =
      l.filter (fun x => decide (x.confidence = c)) := by
  induction l with
  | nil => rfl
  | cons x xs ih =>
    have e := filter_insertDescBy x (pySortDesc xs) c
    simp only [pySortDesc, e, List.filter_cons, ih]

/-- Claim C8 counterexample: ties are not ordered by symbol. A payload
that yields the symbols in dictionary order `ZZZ`, `AAA` with identical
frames (hence identical confidences) is returned in that same order —
the stable sort keeps the insertion order of equal-confidence matches,
and `"ZZZ"` does not precede `"AAA"` in symbol order. -/
theorem scan_tie_order_counterexample :
    (scanSorted tiePayload "gap_up").map ScanResult.ticker = ["ZZZ", "AAA"] ∧
    (scanSorted tiePayload "gap_up").map ScanResult.confidence = [100, 100] := by decide

/-- Claim C8 (amended): the match list returned by a scan (and the final
results event of a streaming scan) is sorted by confidence in descending
order; matches with equal confidence retain the order in which their
symbols were scanned (Python's sort is stable and uses no tie-break
key), which is the iteration order of the fetched dictionary, not symbol
order. The output is a permutation of the per-symbol results and, within
each fixed confidence value, coincides with their scan order. -/
theorem scan_sort_descending_stable (payload : Payload) (pattern : String) :
    (scanSorted payload pattern).Pairwise (fun a b => b.confidence ≤ a.confidence) ∧
    (scanSorted payload pattern).Perm (scanResults payload pattern) ∧
    (∀ c : ℚ, (scanSorted payload pattern).filter (fun x => decide (x.confidence = c)) =
      (scanResults payload pattern).filter (fun x => decide (x.confidence = c))) :=
  ⟨pySortDesc_sorted _, pySortDesc_perm _, fun c => pySortDesc_filter _ c⟩

/-! ## Claim C1: confidence bounds and the 0.5 acceptance threshold -/

theorem falsePair_ok : confInUnit ((false, 0) : Bool × ℚ) ∧ foundIffAboveHalf (false, 0) := by
  unfold confInUnit foundIffAboveHalf
  norm_num

theorem falsePairAtMost_ok :
    confAtMostOne ((false, 0) : Bool × ℚ) ∧ foundIffAboveHalf (false, 0) := by
  unfold confAtMostOne foundIffAboveHalf
  norm_num

theorem confPair_ok (S : ℚ) :
    confAtMostOne (decide (min 1 S > 1/2), min 1 S) ∧
    foundIffAboveHalf (decide (min 1 S > 1/2), min 1 S) := by
  unfold confAtMostOne foundIffAboveHalf
  exact ⟨min_le_left _ _, by simp⟩

theorem truePair_ok (e : ℚ) (he : 1/2 < e) :
    confInUnit (true, min 1 e) ∧ foundIffAboveHalf (true, min 1 e) := by
  unfold confInUnit foundIffAboveHalf
  exact ⟨⟨le_min (by norm_num) (by linarith), min_le_left _ _⟩,
    ⟨fun _ => lt_min (by norm_num) he, fun _ => rfl⟩⟩

theorem flagConf_ok (fg cc num den : ℚ) (hfg : 1/20 ≤ fg) (habs : |cc| ≤ 1/20)
    (hden : 0 < den) (hnum : 0 ≤ num) :
    confInUnit (decide (min 1 ((3/10) * min 1 (fg / (3/20)) +
        (2/5) * (1 - |cc| / (1/20)) + (3/10) * (num / den)) > 1/2),
      min 1 ((3/10) * min 1 (fg / (3/20)) +
        (2/5) * (1 - |cc| / (1/20)) + (3/10) * (num / den))) ∧
    foundIffAboveHalf (decide (min 1 ((3/10) * min 1 (fg / (3/20)) +
        (2/5) * (1 - |cc| / (1/20)) + (3/10) * (num / den)) > 1/2),
      min 1 ((3/10) * min 1 (fg / (3/20)) +
        (2/5) * (1 - |cc| / (1/20)) + (3/10) * (num / den))) := by
  unfold confInUnit foundIffAboveHalf
  have hA : 0 ≤ min 1 (fg / (3/20)) := le_min (by norm_num)
    (div_nonneg (by linarith) (by norm_num))
  have hB : 0 ≤ 1 - |cc| / (1/20) := by
    have : |cc| / (1/20) ≤ 1 := by
      rw [div_le_one (by norm_num)]
      linarith
    linarith
  have hC : 0 ≤ num / den := div_nonneg hnum (le_of_lt hden)
  refine ⟨⟨le_min (by norm_num) (by linarith), min_le_left _ _⟩, by simp⟩

theorem hsConf_ok (sd hp w : ℚ) (hsd : sd ≤ 1/10) (hhp : 0 ≤ hp) (hw : 1/2 ≤ w) :
    confInUnit (decide (min 1 ((2/5) * (1 - sd / (1/10)) +
        (3/10) * min 1 (hp / (1/20)) + (3/10) * w) > 1/2),
      min 1 ((2/5) * (1 - sd / (1/10)) + (3/10) * min 1 (hp / (1/20)) + (3/10) * w)) ∧
    foundIffAboveHalf (decide (min 1 ((2/5) * (1 - sd / (1/10)) +
        (3/10) * min 1 (hp / (1/20)) + (3/10) * w) > 1/2),
      min 1 ((2/5) * (1 - sd / (1/10)) + (3/10) * min 1 (hp / (1/20)) + (3/10) * w)) := by
  unfold confInUnit foundIffAboveHalf
  have hA : 0 ≤ 1 - sd / (1/10) := by
    have : sd / (1/10) ≤ 1 := by
      rw [div_le_one (by norm_num)]
      linarith
    linarith
  have hB : 0 ≤ min 1 (hp / (1/20)) := le_min (by norm_num)
    (div_nonneg hhp (by norm_num))
  refine ⟨⟨le_min (by norm_num) (by linarith), min_le_left _ _⟩, by simp⟩

theorem gapTrue_ok (g : ℚ) (hg : 1/50 ≤ g) :
    confInUnit (true, min 1 (1/2 + g / (1/10))) ∧
    foundIffAboveHalf (true, min 1 (1/2 + g / (1/10))) := by
  have e : g / (1/10) = 10 * g := by ring
  have he : 1/2 < 1/2 + g / (1/10) := by rw [e]; linarith
  exact truePair_ok _ he

theorem volTrue_ok (r : ℚ) (hr : 2 ≤ r) :
    confInUnit (true, min 1 (2/5 + r / 10)) ∧
    foundIffAboveHalf (true, min 1 (2/5 + r / 10)) := by
  have e : r / 10 = (1/10) * r := by ring
  have he : 1/2 < 2/5 + r / 10 := by rw [e]; linarith
  exact truePair_ok _ he

theorem maTrue_ok (sep : ℚ) (hsep : 0 < sep) :
    confInUnit (true, min 1 (3/5 + sep / (1/50))) ∧
    foundIffAboveHalf (true, min 1 (3/5 + sep / (1/50))) := by
  have e : sep / (1/50) = 50 * sep := by ring
  have he : 1/2 < 3/5 + sep / (1/50) := by rw [e]; linarith
  exact truePair_ok _ he

theorem bullFlagCore_ok (closes : List ℚ) (hlen : closes.length = 30) :
    confInUnit (bullFlagCore closes) ∧ foundIffAboveHalf (bullFlagCore closes) := by
  have hsl : (closes.drop 15).length = 15 := by rw [List.length_drop, hlen]
  have hrp : closes.getD (closes.length - 1) 0 ∈ closes.drop 15 := by
    have e : (closes.drop 15).getD 14 0 = closes.getD (15 + 14) 0 := getD_drop_add _ _ _ _
    have e2 : closes.getD (closes.length - 1) 0 = (closes.drop 15).getD 14 0 := by
      rw [e, hlen]
    rw [e2]
    exact getD_mem_of_lt (by rw [hsl]; norm_num) 0
  have hmin := minQ_le_of_mem hrp
  have hmax := le_maxQ_of_mem hrp
  simp only [bullFlagCore]
  split_ifs with h1 h2 h3
  · exact falsePair_ok
  · exact falsePair_ok
  · exact falsePair_ok
  · push_neg at h1 h2
    exact flagConf_ok _ _ _ _ h1 (abs_le.mpr ⟨h2.1, by linarith [h2.2]⟩)
      (lt_of_le_of_ne (by linarith) (fun e => h3 e.symm))
      (by linarith)

theorem bearFlagCore_ok (closes : List ℚ) (hlen : closes.length = 30) :
    confInUnit (bearFlagCore closes) ∧ foundIffAboveHalf (bearFlagCore closes) := by
  have hsl : (closes.drop 15).length = 15 := by rw [List.length_drop, hlen]
  have hrp : closes.getD (closes.length - 1) 0 ∈ closes.drop 15 := by
    have e : (closes.drop 15).getD 14 0 = closes.getD (15 + 14) 0 := getD_drop_add _ _ _ _
    have e2 : closes.getD (closes.length - 1) 0 = (closes.drop 15).getD 14 0 := by
      rw [e, hlen]
    rw [e2]
    exact getD_mem_of_lt (by rw [hsl]; norm_num) 0
  have hmin := minQ_le_of_mem hrp
  have hmax := le_maxQ_of_mem hrp
  simp only [bearFlagCore]
  split_ifs with h1 h2 h3
  · exact falsePair_ok
  · exact falsePair_ok
  · exact falsePair_ok
  · push_neg at h1 h2
    exact flagConf_ok _ _ _ _ h1 (abs_le.mpr ⟨by linarith [h2.1], h2.2⟩)
      (lt_of_le_of_ne (by linarith) (fun e => h3 e.symm))
      (by linarith)

theorem headShouldersCore_ok (closes : List ℚ) (hpos : ∀ c ∈ closes, 0 < c) :
    confInUnit (headShouldersCore closes) ∧ foundIffAboveHalf (headShouldersCore closes) := by
  simp only [headShouldersCore]
  split_ifs with h0
  · exact falsePair_ok
  split
  · rename_i i0 i1 i2 heq
    split_ifs with hb hle hsd hseg hbelow
    all_goals try exact falsePair_ok
    · push_neg at hle
      exact hsConf_ok _ _ _ (not_lt.mp hsd)
        (div_nonneg (by linarith [hle.1, hle.2])
          (le_of_lt (hpos _ (getD_mem_of_lt hb.2.1 0))))
        (by norm_num)
    · push_neg at hle
      exact hsConf_ok _ _ _ (not_lt.mp hsd)
        (div_nonneg (by linarith [hle.1, hle.2])
          (le_of_lt (hpos _ (getD_mem_of_lt hb.2.1 0))))
        (by norm_num)
  · exact falsePair_ok

theorem doubleTopCore_ok (closes : List ℚ) :
    confAtMostOne (doubleTopCore closes) ∧ foundIffAboveHalf (doubleTopCore closes) := by
  simp only [doubleTopCore]
  split_ifs with h0
  · exact falsePairAtMost_ok
  split
  · rename_i i0 i1 heq
    split_ifs with hb hpd hseg htd
    all_goals try exact falsePairAtMost_ok
    exact confPair_ok _
  · exact falsePairAtMost_ok

theorem doubleBottomCore_ok (closes : List ℚ) :
    confAtMostOne (doubleBottomCore closes) ∧ foundIffAboveHalf (doubleBottomCore closes) := by
  simp only [doubleBottomCore]
  split_ifs with h0
  · exact falsePairAtMost_ok
  split
  · rename_i i0 i1 heq
    split_ifs with hb hpd hseg htd
    all_goals try exact falsePairAtMost_ok
    exact confPair_ok _
  · exact falsePairAtMost_ok

theorem detect_gap_up_ok (df : Frame) :
    confInUnit (detect_gap_up df) ∧ foundIffAboveHalf (detect_gap_up df) := by
  unfold detect_gap_up
  dsimp only
  split_ifs with h1 h2 h3
  · exact falsePair_ok
  · exact gapTrue_ok _ h3
  · exact falsePair_ok
  · exact falsePair_ok

theorem detect_gap_down_ok (df : Frame) :
    confInUnit (detect_gap_down df) ∧ foundIffAboveHalf (detect_gap_down df) := by
  unfold detect_gap_down
  dsimp only
  split_ifs with h1 h2 h3
  · exact falsePair_ok
  · exact gapTrue_ok _ h3
  · exact falsePair_ok
  · exact falsePair_ok

theorem detect_volume_spike_ok (df : Frame) :
    confInUnit (detect_volume_spike df) ∧ foundIffAboveHalf (detect_volume_spike df) := by
  unfold detect_volume_spike
  dsimp only
  split_ifs with h1 h2 h3
  · exact falsePair_ok
  · exact falsePair_ok
  · exact volTrue_ok _ h3
  · exact falsePair_ok

theorem smaAt_pos (closes : List ℚ) (w e : ℕ) (hw : 0 < w)
    (hwin : e + 1 - w + w ≤ closes.length)
    (hpos : ∀ c ∈ closes, 0 < c) : 0 < smaAt closes w e := by
  unfold smaAt
  have hlen : ((closes.drop (e + 1 - w)).take w).length = w := by
    rw [List.length_take, List.length_drop]
    omega
  apply div_pos
  · apply List.sum_pos
    · intro x hx
      exact hpos x (List.drop_subset _ _ (List.take_subset _ _ hx))
    · intro hnil
      rw [hnil] at hlen
      simp at hlen
      omega
  · exact_mod_cast hw

theorem detect_ma_crossover_ok (df : Frame) (b : Bool)
    (hC : ∀ bb ∈ df.bars, 0 < bb.Close) :
    confInUnit (detect_ma_crossover df b) ∧ foundIffAboveHalf (detect_ma_crossover df b) := by
  unfold detect_ma_crossover
  dsimp only
  split_ifs with h1 hbool hcr hcr2
  · exact falsePair_ok
  · -- bullish crossover fired
    have hposc : ∀ c ∈ closesOf df, 0 < c := by
      intro c hc
      obtain ⟨bb, hbb, rfl⟩ := List.mem_map.mp hc
      exact hC bb hbb
    have hn : (closesOf df).length = df.bars.length := by simp [closesOf]
    have h50 : 0 < smaAt (closesOf df) 50 ((closesOf df).length - 1) :=
      smaAt_pos _ 50 _ (by norm_num) (by omega) hposc
    exact maTrue_ok _ (div_pos (sub_pos.mpr hcr.2) h50)
  · exact falsePair_ok
  · -- bearish crossover fired
    have hposc : ∀ c ∈ closesOf df, 0 < c := by
      intro c hc
      obtain ⟨bb, hbb, rfl⟩ := List.mem_map.mp hc
      exact hC bb hbb
    have hn : (closesOf df).length = df.bars.length := by simp [closesOf]
    have h50 : 0 < smaAt (closesOf df) 50 ((closesOf df).length - 1) :=
      smaAt_pos _ 50 _ (by norm_num) (by omega) hposc
    exact maTrue_ok _ (div_pos (sub_pos.mpr hcr2.2) h50)
  · exact falsePair_ok

theorem detect_bull_flag_ok (df : Frame) :
    confInUnit (detect_bull_flag df) ∧ foundIffAboveHalf (detect_bull_flag df) := by
  unfold detect_bull_flag
  split_ifs with h
  · exact falsePair_ok
  · refine bullFlagCore_ok _ ?_
    have : 30 ≤ (closesOf df).length := by simp [closesOf]; omega
    exact lastN_length this

theorem detect_bear_flag_ok (df : Frame) :
    confInUnit (detect_bear_flag df) ∧ foundIffAboveHalf (detect_bear_flag df) := by
  unfold detect_bear_flag
  split_ifs with h
  · exact falsePair_ok
  · refine bearFlagCore_ok _ ?_
    have : 30 ≤ (closesOf df).length := by simp [closesOf]; omega
    exact lastN_length this

theorem detect_head_shoulders_ok (df : Frame) (hC : ∀ b ∈ df.bars, 0 < b.Close) :
    confInUnit (detect_head_shoulders df) ∧ foundIffAboveHalf (detect_head_shoulders df) := by
  unfold detect_head_shoulders
  split_ifs with h
  · exact falsePair_ok
  · refine headShouldersCore_ok _ ?_
    intro c hc
    obtain ⟨b, hb, rfl⟩ := List.mem_map.mp (lastN_subset 40 (closesOf df) hc)
    exact hC b hb

theorem detect_double_top_ok (df : Frame) :
    confAtMostOne (detect_double_top df) ∧ foundIffAboveHalf (detect_double_top df) := by
  unfold detect_double_top
  split_ifs with h
  · exact falsePairAtMost_ok
  · exact doubleTopCore_ok _

theorem detect_double_bottom_ok (df : Frame) :
    confAtMostOne (detect_double_bottom df) ∧ foundIffAboveHalf (detect_double_bottom df) := by
  unfold detect_double_bottom
  split_ifs with h
  · exact falsePairAtMost_ok
  · exact doubleBottomCore_ok _

/-- Claim C1 counterexample: `detect_double_top` can return a confidence
strictly below 0, violating `confidence ∈ [0, 1]`. On `dtCloses` the last
two peaks are 100 and 101, the guards pass, and the final close 200 is
far above the second peak, so the unclamped pullback term
`0.3 · min(1, price_from_peak / 0.05)` is about `-5.9` and the returned
confidence is about `-5.31`. -/
theorem double_top_negative_confidence_counterexample :
    (detect_double_top dtDf).2 < 0 := by decide

/-- Claim C1 (amended): for every series of bars with positive high, low
and close prices (the spec's data-model invariant; it also keeps every
denominator of the rational model nonzero), each of the ten classifiers
returns a confidence of at most 1 and returns `found = true` exactly
when the confidence strictly exceeds the fixed threshold 0.5, the same
threshold for all ten; the eight classifiers other than double top and
double bottom also keep the confidence at least 0, while double top and
double bottom can return a negative confidence (see the
counterexample), so only the upper clamp holds for them. -/
theorem detector_confidence_bounds (df : Frame)
    (hC : ∀ b ∈ df.bars, 0 < b.Close) (hH : ∀ b ∈ df.bars, 0 < b.High)
    (hL : ∀ b ∈ df.bars, 0 < b.Low) :
    (confInUnit (detect_bull_flag df) ∧ foundIffAboveHalf (detect_bull_flag df)) ∧
    (confInUnit (detect_bear_flag df) ∧ foundIffAboveHalf (detect_bear_flag df)) ∧
    (confInUnit (detect_head_shoulders df) ∧ foundIffAboveHalf (detect_head_shoulders df)) ∧
    (confAtMostOne (detect_double_top df) ∧ foundIffAboveHalf (detect_double_top df)) ∧
    (confAtMostOne (detect_double_bottom df) ∧ foundIffAboveHalf (detect_double_bottom df)) ∧
    (confInUnit (detect_gap_up df) ∧ foundIffAboveHalf (detect_gap_up df)) ∧
    (confInUnit (detect_gap_down df) ∧ foundIffAboveHalf (detect_gap_down df)) ∧
    (confInUnit (detect_volume_spike df) ∧ foundIffAboveHalf (detect_volume_spike df)) ∧
    (∀ b : Bool, confInUnit (detect_ma_crossover df b) ∧
      foundIffAboveHalf (detect_ma_crossover df b)) :=
  ⟨detect_bull_flag_ok df, detect_bear_flag_ok df, detect_head_shoulders_ok df hC,
   detect_double_top_ok df, detect_double_bottom_ok df, detect_gap_up_ok df,
   detect_gap_down_ok df, detect_volume_spike_ok df,
   fun b => detect_ma_crossover_ok df b hC⟩

/-- Witness for `detector_confidence_bounds` at a one-bar frame with
positive prices. -/
theorem detector_confidence_bounds_witness :
    (∀ b ∈ oneBarDf.bars, 0 < b.Close) ∧
    ((confInUnit (detect_bull_flag oneBarDf) ∧ foundIffAboveHalf (detect_bull_flag oneBarDf)) ∧
     (confInUnit (detect_bear_flag oneBarDf) ∧ foundIffAboveHalf (detect_bear_flag oneBarDf)) ∧
     (confInUnit (detect_head_shoulders oneBarDf) ∧
       foundIffAboveHalf (detect_head_shoulders oneBarDf)) ∧
     (confAtMostOne (detect_double_top oneBarDf) ∧
       foundIffAboveHalf (detect_double_top oneBarDf)) ∧
     (confAtMostOne (detect_double_bottom oneBarDf) ∧
       foundIffAboveHalf (detect_double_bottom oneBarDf)) ∧
     (confInUnit (detect_gap_up oneBarDf) ∧ foundIffAboveHalf (detect_gap_up oneBarDf)) ∧
     (confInUnit (detect_gap_down oneBarDf) ∧ foundIffAboveHalf (detect_gap_down oneBarDf)) ∧
     (confInUnit (detect_volume_spike oneBarDf) ∧
       foundIffAboveHalf (detect_volume_spike oneBarDf)) ∧
     (∀ b : Bool, confInUnit (detect_ma_crossover oneBarDf b) ∧
       foundIffAboveHalf (detect_ma_crossover oneBarDf b))) :=
  ⟨by decide, detector_confidence_bounds oneBarDf (by decide) (by decide) (by decide)⟩
